import Mathlib

/-!
Verification of the distance-method pairs-trading strategy
(`jupyter-py/distance_method.py`).

The development shallowly embeds the two core components of the source:

* `Metrics.compute_trade_statistics` — the trade segmenter that scans a
  per-bar position-status series (0 = flat, 1 = short spread, 2 = long
  spread) and produces trade counts and holding-period statistics;
* `DistanceStrategy` — the per-bar spread state machine: threshold
  computation, entry (`short_spread` / `long_spread`), exit
  (`exit_spread`), stop-loss evaluation, commission accounting
  (`incur_commission`) and the order-notification callback
  (`notify_order`).

Python floats are modelled as rationals (`ℚ`); Python's `int()`
truncation toward zero is modelled by `pyInt`; nullable fields are
`Option`s; code paths that would raise a `TypeError` in Python (reading
a `None` field in arithmetic) are modelled by returning `none`.
-/

/-- Python's `int()` applied to a float: truncation toward zero. -/
def pyInt (q : ℚ) : ℤ := if q < 0 then -((-q).floor) else q.floor

/-- `Rat.floor` agrees with the mathematical floor `⌊·⌋`. -/
theorem rat_floor_eq_intFloor (q : ℚ) : q.floor = ⌊q⌋ := by
  rw [Rat.floor_def', Rat.floor_def]

/-- On nonnegative inputs Python's `int()` truncation is the floor. -/
theorem pyInt_eq_floor_of_nonneg {q : ℚ} (h : 0 ≤ q) : pyInt q = ⌊q⌋ := by
  unfold pyInt
  rcases lt_or_ge q 0 with hlt | hge
  · exact absurd hlt (not_lt.mpr h)
  · simp [not_lt.mpr hge, rat_floor_eq_intFloor]

namespace Metrics

/-- The scan state of `Metrics.compute_trade_statistics`: the local
variables `_n`, `_mean`, `_counter`, `_curstate` of the Python loop. -/
structure SegState where
  n : ℕ
  mean : ℚ
  counter : ℕ
  curstate : ℕ
deriving DecidableEq

/-- One iteration of the `for i, status in enumerate(self.status)` loop
body of `Metrics.compute_trade_statistics`. -/
def segStep (st : SegState) (status : ℕ) : SegState :=
  if st.curstate = 0 then
    if status = 0 then st
    else { st with curstate := status, counter := 1 }
  else
    if status = 0 ∨ status ≠ st.curstate then
      { n := st.n + 1
        mean := ((st.n : ℚ) * st.mean + (st.counter : ℚ)) / ((st.n : ℚ) + 1)
        counter := 1
        curstate := status }
    else
      { st with counter := st.counter + 1 }

/-- The outputs assembled at the end of `compute_trade_statistics`. -/
structure TradeStats where
  n_resolved_trades : ℕ
  n_unresolved_trades : ℕ
  n_trades : ℕ
  avg_holding_period : ℚ
  len_unresolved_trade : ℤ
deriving DecidableEq

/-- `Metrics.compute_trade_statistics`: left-to-right scan of the
recorded status series followed by the final field assignments. -/
def compute_trade_statistics (statusList : List ℕ) : TradeStats :=
  let st := statusList.foldl segStep ⟨0, 0, 0, 0⟩
  let nr := st.n
  let nu := if st.curstate = 0 then 0 else 1
  { n_resolved_trades := nr
    n_unresolved_trades := nu
    n_trades := nr + nu
    avg_holding_period := if 0 < nr then st.mean else -1
    len_unresolved_trade := if nu = 1 then (st.counter : ℤ) else -1 }

end Metrics

/-- C2: a direct 1→2 or 2→1 status flip (no intervening 0) closes the
current run — incrementing the resolved count and folding the run length
into the running mean — and immediately opens a new run of length 1 in
the new state at the same bar; and on `[1,1,2,2,2]` the segmenter
returns `n_resolved_trades = 1`, `avg_holding_period = 2`,
`n_unresolved_trades = 1`, `len_unresolved_trade = 3`. -/
theorem C2_flip_closes_and_reopens (st : Metrics.SegState) (status : ℕ)
    (h1 : st.curstate ≠ 0) (h2 : status ≠ 0) (h3 : status ≠ st.curstate) :
    ((Metrics.segStep st status).n = st.n + 1 ∧
     (Metrics.segStep st status).mean
        = ((st.n : ℚ) * st.mean + (st.counter : ℚ)) / ((st.n : ℚ) + 1) ∧
     (Metrics.segStep st status).counter = 1 ∧
     (Metrics.segStep st status).curstate = status) ∧
    ((Metrics.compute_trade_statistics [1, 1, 2, 2, 2]).n_resolved_trades = 1 ∧
     (Metrics.compute_trade_statistics [1, 1, 2, 2, 2]).avg_holding_period = 2 ∧
     (Metrics.compute_trade_statistics [1, 1, 2, 2, 2]).n_unresolved_trades = 1 ∧
     (Metrics.compute_trade_statistics [1, 1, 2, 2, 2]).len_unresolved_trade = 3) := by
  constructor
  · simp [Metrics.segStep, h1, h3]
  · refine ⟨?_, ?_, ?_, ?_⟩ <;>
      simp [Metrics.compute_trade_statistics, Metrics.segStep] <;> norm_num

/-- Witness for C2 at the concrete scan state reached after `[1,1]`
(n = 0, mean = 0, counter = 2, curstate = 1) hit by status 2. -/
theorem C2_flip_closes_and_reopens_witness :
    ((Metrics.segStep ⟨0, 0, 2, 1⟩ 2).n = 0 + 1 ∧
     (Metrics.segStep ⟨0, 0, 2, 1⟩ 2).mean
        = (((0 : ℕ) : ℚ) * 0 + ((2 : ℕ) : ℚ)) / (((0 : ℕ) : ℚ) + 1) ∧
     (Metrics.segStep ⟨0, 0, 2, 1⟩ 2).counter = 1 ∧
     (Metrics.segStep ⟨0, 0, 2, 1⟩ 2).curstate = 2) ∧
    ((Metrics.compute_trade_statistics [1, 1, 2, 2, 2]).n_resolved_trades = 1 ∧
     (Metrics.compute_trade_statistics [1, 1, 2, 2, 2]).avg_holding_period = 2 ∧
     (Metrics.compute_trade_statistics [1, 1, 2, 2, 2]).n_unresolved_trades = 1 ∧
     (Metrics.compute_trade_statistics [1, 1, 2, 2, 2]).len_unresolved_trade = 3) :=
  C2_flip_closes_and_reopens ⟨0, 0, 2, 1⟩ 2
    (by decide) (by decide) (by decide)

/-- C3: on the status sequence `[0,0,1,1,1,0,2,2,0]` the segmenter
returns `n_resolved_trades = 2`, `avg_holding_period = 5/2` (the running
mean of the closed-run lengths 3 and 2), `n_unresolved_trades = 0`,
`len_unresolved_trade = -1`. -/
theorem C3_segmenter_scenario :
    (Metrics.compute_trade_statistics [0, 0, 1, 1, 1, 0, 2, 2, 0]).n_resolved_trades = 2 ∧
    (Metrics.compute_trade_statistics [0, 0, 1, 1, 1, 0, 2, 2, 0]).avg_holding_period = 5 / 2 ∧
    (Metrics.compute_trade_statistics [0, 0, 1, 1, 1, 0, 2, 2, 0]).n_unresolved_trades = 0 ∧
    (Metrics.compute_trade_statistics [0, 0, 1, 1, 1, 0, 2, 2, 0]).len_unresolved_trade = -1 := by
  refine ⟨?_, ?_, ?_, ?_⟩ <;>
    simp [Metrics.compute_trade_statistics, Metrics.segStep] <;> norm_num

namespace DistanceStrategy

/-- The tunable parameters of `DistanceStrategy.params`. -/
structure StratParams where
  lookback : ℕ
  max_lookback : ℕ
  enter_threshold_size : ℚ
  exit_threshold_size : ℚ
  loss_limit : ℚ
deriving DecidableEq

/-- The default parameter values of the source (`loss_limit = -0.015`,
`enter_threshold_size = 2`, `exit_threshold_size = 0.5`). -/
def defaultParams : StratParams :=
  { lookback := 84
    max_lookback := 84
    enter_threshold_size := 2
    exit_threshold_size := 1 / 2
    loss_limit := -(15 / 1000) }

/-- The per-bar environment read by `DistanceStrategy.next` from the
backtesting host: history lengths, current close prices, the mean and
standard deviation of the spread over the lookback window (computed by
the external pandas library from `Y - X`), and the broker's current
portfolio value. -/
structure BarInput where
  len0 : ℕ
  len1 : ℕ
  price0 : ℚ
  price1 : ℚ
  spread_mean : ℚ
  spread_std : ℚ
  pv : ℚ
deriving DecidableEq

/-- An order intent submitted to the broker (`self.buy`, `self.sell`,
`self.close`); the data index identifies the instrument (0 or 1). -/
inductive Order where
  | buy (data : ℕ) (size : ℤ)
  | sell (data : ℕ) (size : ℤ)
  | close (data : ℕ)
deriving DecidableEq

/-- The mutable instance fields of `DistanceStrategy` that the claims
are about: the pending-order handle, position status (0/1/2), leg
quantities, the nullable trade-state fields and the nullable
thresholds. -/
structure StratState where
  orderid : Option ℕ
  status : ℕ
  qty0 : ℤ
  qty1 : ℤ
  initial_price_data0 : Option ℚ
  initial_price_data1 : Option ℚ
  initial_cash : Option ℚ
  initial_long_pv : Option ℚ
  initial_short_pv : Option ℚ
  upper_limit : Option ℚ
  lower_limit : Option ℚ
  up_medium : Option ℚ
  low_medium : Option ℚ
deriving DecidableEq

/-- `DistanceStrategy.__init__`: all nullable fields start as `None`,
quantities at 0, status flat, no pending order. -/
def init : StratState :=
  { orderid := none
    status := 0
    qty0 := 0
    qty1 := 0
    initial_price_data0 := none
    initial_price_data1 := none
    initial_cash := none
    initial_long_pv := none
    initial_short_pv := none
    upper_limit := none
    lower_limit := none
    up_medium := none
    low_medium := none }

/-- `DistanceStrategy.long_portfolio_value(price, qty)`. -/
def long_portfolio_value (price qty : ℚ) : ℚ := price * qty

/-- `DistanceStrategy.short_portfolio_value(price_initial, price_final,
qty)`: the 150%-collateral valuation of a short leg. -/
def short_portfolio_value (price_initial price_final qty : ℚ) : ℚ :=
  qty * (3 / 2 * price_initial - price_final)

/-- The four threshold values computed on a flat bar (lines 201–204 of
the source). -/
structure Thresholds where
  upper_limit : ℚ
  lower_limit : ℚ
  up_medium : ℚ
  low_medium : ℚ
deriving DecidableEq

/-- The threshold computation of `DistanceStrategy.next` performed when
`self.status == 0`, as a function of the threshold sizes and the
spread's lookback-window mean and standard deviation. -/
def compute_limits (enter_size exit_size spread_mean spread_std : ℚ) : Thresholds :=
  { upper_limit := spread_mean + enter_size * spread_std
    lower_limit := spread_mean - enter_size * spread_std
    up_medium := spread_mean + exit_size * spread_std
    low_medium := spread_mean - exit_size * spread_std }

/-- `DistanceStrategy.short_spread`: size both legs from two thirds of
portfolio value, submit a sell on data0 and a buy on data1 (each netting
out the prior opposite leg), set status 1 and record the trade-state
baseline. -/
def short_spread (b : BarInput) (s : StratState) : StratState × List Order :=
  let x := pyInt (2 * b.pv / 3 / b.price0)
  let y := pyInt (2 * b.pv / 3 / b.price1)
  let orders := [Order.sell 0 (x + s.qty0), Order.buy 1 (y + s.qty1)]
  let s' : StratState :=
    { s with
      qty0 := x
      qty1 := y
      status := 1
      initial_cash := some ((y : ℚ) * b.price1 + 1 / 2 * (x : ℚ) * b.price0)
      initial_long_pv := some (long_portfolio_value (y : ℚ) b.price1)
      initial_short_pv := some (1 / 2 * b.price0 * (x : ℚ))
      initial_price_data0 := some b.price0
      initial_price_data1 := some b.price1 }
  (s', orders)

/-- `DistanceStrategy.long_spread`: the mirror image — buy data0, sell
data1, set status 2 and record the trade-state baseline. -/
def long_spread (b : BarInput) (s : StratState) : StratState × List Order :=
  let x := pyInt (2 * b.pv / 3 / b.price0)
  let y := pyInt (2 * b.pv / 3 / b.price1)
  let orders := [Order.buy 0 (x + s.qty0), Order.sell 1 (y + s.qty1)]
  let s' : StratState :=
    { s with
      qty0 := x
      qty1 := y
      status := 2
      initial_cash := some ((x : ℚ) * b.price0 + 1 / 2 * (y : ℚ) * b.price1)
      initial_long_pv := some (long_portfolio_value (x : ℚ) b.price0)
      initial_short_pv := some (1 / 2 * b.price1 * (y : ℚ))
      initial_price_data0 := some b.price0
      initial_price_data1 := some b.price1 }
  (s', orders)

/-- `DistanceStrategy.exit_spread`: close both legs, zero the
quantities, null every trade-state field and return to flat. -/
def exit_spread (s : StratState) : StratState × List Order :=
  ({ s with
      qty0 := 0
      qty1 := 0
      status := 0
      initial_cash := none
      initial_long_pv := none
      initial_short_pv := none
      initial_price_data0 := none
      initial_price_data1 := none },
   [Order.close 0, Order.close 1])

/-- `DistanceStrategy.incur_commission(price, qty)`: the commission
charged on a completed fill, `min(max(1, 0.005*|qty|), 0.01*price*|qty|)`. -/
def incur_commission (price qty : ℚ) : ℚ :=
  min (max 1 (5 / 1000 * |qty|)) (1 / 100 * price * |qty|)

/-- The order lifecycle states delivered to `notify_order`. -/
inductive OrdStatus where
  | Submitted
  | Accepted
  | Completed
  | Expired
  | Canceled
  | Margin
deriving DecidableEq

/-- The order notification payload read by `notify_order`. -/
structure OrderInfo where
  status : OrdStatus
  isbuy : Bool
  executed_price : ℚ
  executed_size : ℚ
deriving DecidableEq

/-- `DistanceStrategy.notify_order`: Submitted/Accepted return early;
Completed incurs commission (deducted from broker cash via
`add_cash(-commission)`); Expired/Canceled/Margin only log; every
branch past the early return clears `self.orderid`. -/
def notify_order (s : StratState) (cash : ℚ) (o : OrderInfo) : StratState × ℚ :=
  if o.status = OrdStatus.Submitted ∨ o.status = OrdStatus.Accepted then
    (s, cash)
  else
    let cash' :=
      if o.status = OrdStatus.Completed then
        cash - incur_commission o.executed_price o.executed_size
      else cash
    ({ s with orderid := none }, cash')

/-- `DistanceStrategy.next`: the per-bar state machine. Returns `none`
on paths where the Python code would compare a `None` field (reading
thresholds or trade-state fields that were never set); otherwise
returns the updated state and the list of submitted orders. -/
def next (p : StratParams) (b : BarInput) (s : StratState) :
    Option (StratState × List Order) :=
  if min b.len0 b.len1 < p.max_lookback then
    some (s, [])
  else if s.orderid.isSome then
    some (s, [])
  else
    let spread := b.price0 - b.price1
    if s.status = 0 then
      let t := compute_limits p.enter_threshold_size p.exit_threshold_size
        b.spread_mean b.spread_std
      let s' : StratState :=
        { s with
          upper_limit := some t.upper_limit
          lower_limit := some t.lower_limit
          up_medium := some t.up_medium
          low_medium := some t.low_medium }
      if spread > t.upper_limit then some (short_spread b s')
      else if spread < t.lower_limit then some (long_spread b s')
      else some (s', [])
    else if s.status = 1 then
      match s.lower_limit, s.up_medium with
      | some ll, some um =>
        if spread < ll then some (long_spread b s)
        else if spread < um then some (exit_spread s)
        else
          match s.initial_price_data0, s.initial_long_pv,
              s.initial_short_pv, s.initial_cash with
          | some ip0, some ilpv, some ispv, some icash =>
            let long_pv := long_portfolio_value b.price1 (s.qty1 : ℚ)
            let short_pv := short_portfolio_value ip0 b.price0 (s.qty0 : ℚ)
            let net_gain_long := long_pv - ilpv
            let net_gain_short := short_pv - ispv
            let ret := (net_gain_long + net_gain_short) / icash
            if ret < p.loss_limit ∨ short_pv ≤ 0 then some (exit_spread s)
            else some (s, [])
          | _, _, _, _ => none
      | _, _ => none
    else if s.status = 2 then
      match s.upper_limit, s.low_medium with
      | some ul, some lm =>
        if spread > ul then some (short_spread b s)
        else if spread > lm then some (exit_spread s)
        else
          match s.initial_price_data1, s.initial_long_pv,
              s.initial_short_pv, s.initial_cash with
          | some ip1, some ilpv, some ispv, some icash =>
            let long_pv := long_portfolio_value b.price0 (s.qty0 : ℚ)
            let short_pv := short_portfolio_value ip1 b.price0 (s.qty1 : ℚ)
            let net_gain_long := long_pv - ilpv
            let net_gain_short := short_pv - ispv
            let ret := (net_gain_long + net_gain_short) / icash
            if ret < p.loss_limit ∨ short_pv ≤ 0 then some (exit_spread s)
            else some (s, [])
          | _, _, _, _ => none
      | _, _ => none
    else
      some (s, [])

end DistanceStrategy

/-!  ## Concrete inputs for the C1 divergence  -/

/-- The bar at which the C1 divergence is exhibited: both instruments
have a full history, instrument0 trades at 20, instrument1 at 14. -/
def bC1 : DistanceStrategy.BarInput :=
  { len0 := 84
    len1 := 84
    price0 := 20
    price1 := 14
    spread_mean := 0
    spread_std := 0
    pv := 1000 }

/-- A LongSpread (status 2) state in which the stop-loss check runs at
`bC1`: spread = 6 is at or below `low_medium = 50` and not above
`upper_limit = 100`; instrument1 was shorted at entry price 10. -/
def sC1 : DistanceStrategy.StratState :=
  { orderid := none
    status := 2
    qty0 := 10
    qty1 := 10
    initial_price_data0 := some 20
    initial_price_data1 := some 10
    initial_cash := some 1000
    initial_long_pv := some 200
    initial_short_pv := some 10
    upper_limit := some 100
    lower_limit := some (-100)
    up_medium := some 60
    low_medium := some 50 }

/-- C1 (code bug): in the status-2 stop-loss branch the code values the
short leg (instrument1) with the **current price of instrument0**
(`self.data0.close`), not instrument1. At `bC1`/`sC1` the code computes
`short_pv = 10 * (1.5*10 - 20) = -50 ≤ 0` and force-exits, whereas the
short-leg value prescribed by the claim,
`qty1 * (1.5*entry_price1 - current_price1) = 10 * (1.5*10 - 14) = 10`,
is positive and the claim's unrealized return is 0 ≥ loss_limit, so per
the claim no forced exit should occur. -/
theorem C1_short_leg_divergence :
    DistanceStrategy.next DistanceStrategy.defaultParams bC1 sC1 =
      some (DistanceStrategy.exit_spread sC1) ∧
    (DistanceStrategy.exit_spread sC1).1.status = 0 ∧
    (DistanceStrategy.exit_spread sC1).2 =
      [DistanceStrategy.Order.close 0, DistanceStrategy.Order.close 1] ∧
    DistanceStrategy.short_portfolio_value 10 bC1.price0 (sC1.qty1 : ℚ) = -50 ∧
    DistanceStrategy.short_portfolio_value 10 bC1.price1 (sC1.qty1 : ℚ) = 10 ∧
    (0 : ℚ) < DistanceStrategy.short_portfolio_value 10 bC1.price1 (sC1.qty1 : ℚ) ∧
    ¬ ((DistanceStrategy.long_portfolio_value bC1.price0 (sC1.qty0 : ℚ) - 200 +
          (DistanceStrategy.short_portfolio_value 10 bC1.price1 (sC1.qty1 : ℚ) - 10)) / 1000
        < DistanceStrategy.defaultParams.loss_limit) := by
  refine ⟨?_, ?_, ?_, ?_, ?_, ?_, ?_⟩ <;>
    norm_num [DistanceStrategy.next, DistanceStrategy.defaultParams, bC1, sC1,
      DistanceStrategy.exit_spread, DistanceStrategy.short_portfolio_value,
      DistanceStrategy.long_portfolio_value, DistanceStrategy.compute_limits]

/-- C4 counterexample: with `exit_threshold_size = -1 ≤ 0 =
enter_threshold_size` and standard deviation 1 (both allowed by the
claim's hypotheses), the thresholds recomputed on a flat bar violate
`low_medium ≤ spread_mean ≤ up_medium`: they come out `low_medium = 1`,
`up_medium = -1` around `spread_mean = 0`. -/
def pC4 : DistanceStrategy.StratParams :=
  { lookback := 84
    max_lookback := 84
    enter_threshold_size := 0
    exit_threshold_size := -1
    loss_limit := -(15 / 1000) }

/-- The flat bar on which the C4 counterexample thresholds are
recomputed: full history, zero spread, unit standard deviation. -/
def bC4 : DistanceStrategy.BarInput :=
  { len0 := 84
    len1 := 84
    price0 := 0
    price1 := 0
    spread_mean := 0
    spread_std := 1
    pv := 1000 }

/-- C4 as stated is false: all its hypotheses hold at `pC4`/`bC4`
(flat position, enough history, `exit_threshold_size ≤
enter_threshold_size`, nonnegative standard deviation), the thresholds
are recomputed, yet `low_medium ≤ spread_mean` and `spread_mean ≤
up_medium` both fail. -/
theorem C4_counterexample :
    pC4.exit_threshold_size ≤ pC4.enter_threshold_size ∧
    (0 : ℚ) ≤ bC4.spread_std ∧
    DistanceStrategy.init.status = 0 ∧
    ¬ min bC4.len0 bC4.len1 < pC4.max_lookback ∧
    DistanceStrategy.init.orderid = none ∧
    (∃ s' : DistanceStrategy.StratState,
      DistanceStrategy.next pC4 bC4 DistanceStrategy.init = some (s', []) ∧
      s'.low_medium = some 1 ∧ s'.up_medium = some (-1)) ∧
    ¬ ((1 : ℚ) ≤ bC4.spread_mean) ∧
    ¬ (bC4.spread_mean ≤ (-1 : ℚ)) := by
  refine ⟨by norm_num [pC4], by norm_num [bC4], rfl, by norm_num [bC4, pC4],
    rfl, ?_, by norm_num [bC4], by norm_num [bC4]⟩
  refine ⟨{ DistanceStrategy.init with
      upper_limit := some 0
      lower_limit := some 0
      up_medium := some (-1)
      low_medium := some 1 }, ?_, rfl, rfl⟩
  norm_num [DistanceStrategy.next, DistanceStrategy.init, pC4, bC4,
    DistanceStrategy.compute_limits]

/-- C4 (amended with the additionally needed hypothesis
`0 ≤ exit_threshold_size`): whenever thresholds are recomputed on a
flat bar with enough history and no pending order, and
`0 ≤ exit_threshold_size ≤ enter_threshold_size` and the spread's
standard deviation is nonnegative, the stored values satisfy
`lower_limit ≤ low_medium ≤ spread_mean ≤ up_medium ≤ upper_limit`. -/
theorem C4_threshold_chain (p : DistanceStrategy.StratParams)
    (b : DistanceStrategy.BarInput) (s s' : DistanceStrategy.StratState)
    (ords : List DistanceStrategy.Order)
    (hstat : s.status = 0)
    (hist : ¬ min b.len0 b.len1 < p.max_lookback)
    (hord : s.orderid = none)
    (hk0 : 0 ≤ p.exit_threshold_size)
    (hk : p.exit_threshold_size ≤ p.enter_threshold_size)
    (hstd : 0 ≤ b.spread_std)
    (hnext : DistanceStrategy.next p b s = some (s', ords)) :
    s'.upper_limit = some (b.spread_mean + p.enter_threshold_size * b.spread_std) ∧
    s'.lower_limit = some (b.spread_mean - p.enter_threshold_size * b.spread_std) ∧
    s'.up_medium = some (b.spread_mean + p.exit_threshold_size * b.spread_std) ∧
    s'.low_medium = some (b.spread_mean - p.exit_threshold_size * b.spread_std) ∧
    b.spread_mean - p.enter_threshold_size * b.spread_std
      ≤ b.spread_mean - p.exit_threshold_size * b.spread_std ∧
    b.spread_mean - p.exit_threshold_size * b.spread_std ≤ b.spread_mean ∧
    b.spread_mean ≤ b.spread_mean + p.exit_threshold_size * b.spread_std ∧
    b.spread_mean + p.exit_threshold_size * b.spread_std
      ≤ b.spread_mean + p.enter_threshold_size * b.spread_std := by
  have hx : 0 ≤ p.exit_threshold_size * b.spread_std := mul_nonneg hk0 hstd
  have hxe : p.exit_threshold_size * b.spread_std
      ≤ p.enter_threshold_size * b.spread_std :=
    mul_le_mul_of_nonneg_right hk hstd
  have hfields : s'.upper_limit
        = some (b.spread_mean + p.enter_threshold_size * b.spread_std) ∧
      s'.lower_limit = some (b.spread_mean - p.enter_threshold_size * b.spread_std) ∧
      s'.up_medium = some (b.spread_mean + p.exit_threshold_size * b.spread_std) ∧
      s'.low_medium = some (b.spread_mean - p.exit_threshold_size * b.spread_std) := by
    rw [DistanceStrategy.next] at hnext
    simp only [hist, if_false, hord, Option.isSome_none, Bool.false_eq_true,
      hstat, if_true, if_false] at hnext
    split_ifs at hnext <;>
      · simp only [DistanceStrategy.short_spread, DistanceStrategy.long_spread,
          Option.some.injEq, Prod.mk.injEq] at hnext
        obtain ⟨hs, -⟩ := hnext
        subst hs
        simp [DistanceStrategy.compute_limits]
  exact ⟨hfields.1, hfields.2.1, hfields.2.2.1, hfields.2.2.2,
    by linarith, by linarith, by linarith, by linarith⟩

/-- A flat bar with full history used to witness C4 and C5: equal
prices (spread 0), zero spread mean, unit standard deviation. -/
def bC4w : DistanceStrategy.BarInput :=
  { len0 := 84
    len1 := 84
    price0 := 10
    price1 := 10
    spread_mean := 0
    spread_std := 1
    pv := 1000 }

/-- The state stored by `next` at `bC4w` under the default parameters:
thresholds 0 ± 2·1 and 0 ± (1/2)·1. -/
def sC4w : DistanceStrategy.StratState :=
  { DistanceStrategy.init with
    upper_limit := some (0 + 2 * 1)
    lower_limit := some (0 - 2 * 1)
    up_medium := some (0 + 1 / 2 * 1)
    low_medium := some (0 - 1 / 2 * 1) }

/-- Witness for the amended C4 at the default parameters and `bC4w`. -/
theorem C4_threshold_chain_witness :
    sC4w.upper_limit = some (bC4w.spread_mean +
      DistanceStrategy.defaultParams.enter_threshold_size * bC4w.spread_std) ∧
    sC4w.lower_limit = some (bC4w.spread_mean -
      DistanceStrategy.defaultParams.enter_threshold_size * bC4w.spread_std) ∧
    sC4w.up_medium = some (bC4w.spread_mean +
      DistanceStrategy.defaultParams.exit_threshold_size * bC4w.spread_std) ∧
    sC4w.low_medium = some (bC4w.spread_mean -
      DistanceStrategy.defaultParams.exit_threshold_size * bC4w.spread_std) ∧
    bC4w.spread_mean - DistanceStrategy.defaultParams.enter_threshold_size * bC4w.spread_std
      ≤ bC4w.spread_mean - DistanceStrategy.defaultParams.exit_threshold_size * bC4w.spread_std ∧
    bC4w.spread_mean - DistanceStrategy.defaultParams.exit_threshold_size * bC4w.spread_std
      ≤ bC4w.spread_mean ∧
    bC4w.spread_mean
      ≤ bC4w.spread_mean + DistanceStrategy.defaultParams.exit_threshold_size * bC4w.spread_std ∧
    bC4w.spread_mean + DistanceStrategy.defaultParams.exit_threshold_size * bC4w.spread_std
      ≤ bC4w.spread_mean + DistanceStrategy.defaultParams.enter_threshold_size * bC4w.spread_std :=
  C4_threshold_chain DistanceStrategy.defaultParams bC4w DistanceStrategy.init sC4w []
    rfl (by norm_num [bC4w, DistanceStrategy.defaultParams]) rfl
    (by norm_num [DistanceStrategy.defaultParams])
    (by norm_num [DistanceStrategy.defaultParams])
    (by norm_num [bC4w])
    (by norm_num [DistanceStrategy.next, DistanceStrategy.init,
      DistanceStrategy.defaultParams, DistanceStrategy.compute_limits, bC4w, sC4w])

/-- C5: on a flat bar with enough history and no pending order, if the
current spread lies inside the closed band `[lower_limit, upper_limit]`
just recomputed for this bar, `next` emits no order and the position
stays flat. -/
theorem C5_flat_inband_no_order (p : DistanceStrategy.StratParams)
    (b : DistanceStrategy.BarInput) (s : DistanceStrategy.StratState)
    (hstat : s.status = 0)
    (hist : ¬ min b.len0 b.len1 < p.max_lookback)
    (hord : s.orderid = none)
    (hlo : (DistanceStrategy.compute_limits p.enter_threshold_size p.exit_threshold_size
        b.spread_mean b.spread_std).lower_limit ≤ b.price0 - b.price1)
    (hhi : b.price0 - b.price1 ≤
      (DistanceStrategy.compute_limits p.enter_threshold_size p.exit_threshold_size
        b.spread_mean b.spread_std).upper_limit) :
    ∃ s' : DistanceStrategy.StratState,
      DistanceStrategy.next p b s = some (s', []) ∧ s'.status = 0 := by
  unfold DistanceStrategy.next
  simp only [hist, if_false, hord, Option.isSome_none, Bool.false_eq_true, hstat, if_true]
  rw [if_neg (not_lt.mpr hhi), if_neg (not_lt.mpr hlo)]
  exact ⟨_, rfl, rfl⟩

/-- Witness for C5 at the default parameters and the flat bar `bC4w`
(spread 0 inside the band [-2, 2]). -/
theorem C5_flat_inband_no_order_witness :
    ∃ s' : DistanceStrategy.StratState,
      DistanceStrategy.next DistanceStrategy.defaultParams bC4w DistanceStrategy.init =
        some (s', []) ∧ s'.status = 0 :=
  C5_flat_inband_no_order DistanceStrategy.defaultParams bC4w DistanceStrategy.init
    rfl (by norm_num [bC4w, DistanceStrategy.defaultParams]) rfl
    (by norm_num [bC4w, DistanceStrategy.defaultParams, DistanceStrategy.compute_limits])
    (by norm_num [bC4w, DistanceStrategy.defaultParams, DistanceStrategy.compute_limits])

/-- C6: on a completed fill the cash deducted by `notify_order` is
exactly the clamped commission
`min(max(1, 0.005*|qty|), 0.01*price*|qty|)`, and at `price = 100`,
`qty = 50` the commission is 1 (the floor applies). -/
theorem C6_commission_on_fill (s : DistanceStrategy.StratState) (cash : ℚ)
    (o : DistanceStrategy.OrderInfo)
    (h : o.status = DistanceStrategy.OrdStatus.Completed) :
    (DistanceStrategy.notify_order s cash o).2 =
      cash - min (max 1 (5 / 1000 * |o.executed_size|))
        (1 / 100 * o.executed_price * |o.executed_size|) ∧
    DistanceStrategy.incur_commission 100 50 = 1 := by
  constructor
  · simp [DistanceStrategy.notify_order, h, DistanceStrategy.incur_commission]
  · norm_num [DistanceStrategy.incur_commission, abs_of_nonneg, min_def, max_def]

/-- Witness for C6: a completed buy of 50 shares at price 100 from the
initial state with zero cash. -/
theorem C6_commission_on_fill_witness :
    (DistanceStrategy.notify_order DistanceStrategy.init 0
        ⟨DistanceStrategy.OrdStatus.Completed, true, 100, 50⟩).2 =
      0 - min (max 1 (5 / 1000 *
          |(⟨DistanceStrategy.OrdStatus.Completed, true, 100, 50⟩ :
              DistanceStrategy.OrderInfo).executed_size|))
        (1 / 100 * (⟨DistanceStrategy.OrdStatus.Completed, true, 100, 50⟩ :
              DistanceStrategy.OrderInfo).executed_price *
          |(⟨DistanceStrategy.OrdStatus.Completed, true, 100, 50⟩ :
              DistanceStrategy.OrderInfo).executed_size|) ∧
    DistanceStrategy.incur_commission 100 50 = 1 :=
  C6_commission_on_fill DistanceStrategy.init 0
    ⟨DistanceStrategy.OrdStatus.Completed, true, 100, 50⟩ rfl

/-- C7: expired/cancelled/margin-rejected notifications change nothing
but the pending-order flag (cleared to `none`, cash untouched, no
commission), while submitted/accepted notifications change no state at
all. -/
theorem C7_notify_frame (s : DistanceStrategy.StratState) (cash : ℚ)
    (o : DistanceStrategy.OrderInfo) :
    ((o.status = DistanceStrategy.OrdStatus.Expired ∨
        o.status = DistanceStrategy.OrdStatus.Canceled ∨
        o.status = DistanceStrategy.OrdStatus.Margin) →
      DistanceStrategy.notify_order s cash o = ({ s with orderid := none }, cash)) ∧
    ((o.status = DistanceStrategy.OrdStatus.Submitted ∨
        o.status = DistanceStrategy.OrdStatus.Accepted) →
      DistanceStrategy.notify_order s cash o = (s, cash)) := by
  constructor
  · rintro (h | h | h) <;> simp [DistanceStrategy.notify_order, h]
  · rintro (h | h) <;> simp [DistanceStrategy.notify_order, h]

/-- Witness for C7: an expired and a submitted notification delivered
to the initial state with zero cash. -/
theorem C7_notify_frame_witness :
    DistanceStrategy.notify_order DistanceStrategy.init 0
        ⟨DistanceStrategy.OrdStatus.Expired, true, 100, 50⟩ =
      ({ DistanceStrategy.init with orderid := none }, 0) ∧
    DistanceStrategy.notify_order DistanceStrategy.init 0
        ⟨DistanceStrategy.OrdStatus.Submitted, true, 100, 50⟩ =
      (DistanceStrategy.init, 0) :=
  ⟨(C7_notify_frame DistanceStrategy.init 0
      ⟨DistanceStrategy.OrdStatus.Expired, true, 100, 50⟩).1 (Or.inl rfl),
   (C7_notify_frame DistanceStrategy.init 0
      ⟨DistanceStrategy.OrdStatus.Submitted, true, 100, 50⟩).2 (Or.inl rfl)⟩

/-- C8: entering via `short_spread` (resp. `long_spread`) leaves status
1 (resp. 2), i.e. non-flat, sets every trade-state field to a non-null
value, and submits orders sized `floor((2/3·pv)/price)` plus the prior
opposite-direction quantity; `exit_spread` zeroes the quantities, nulls
every trade-state field and returns the position to flat while closing
both legs. -/
theorem C8_enter_exit (b : DistanceStrategy.BarInput) (s : DistanceStrategy.StratState)
    (hpv : 0 ≤ b.pv) (hp0 : 0 < b.price0) (hp1 : 0 < b.price1) :
    ((DistanceStrategy.short_spread b s).1.status = 1 ∧
     (DistanceStrategy.short_spread b s).1.status ≠ 0 ∧
     (DistanceStrategy.short_spread b s).1.qty0 = ⌊2 * b.pv / 3 / b.price0⌋ ∧
     (DistanceStrategy.short_spread b s).1.qty1 = ⌊2 * b.pv / 3 / b.price1⌋ ∧
     (DistanceStrategy.short_spread b s).1.initial_cash.isSome = true ∧
     (DistanceStrategy.short_spread b s).1.initial_long_pv.isSome = true ∧
     (DistanceStrategy.short_spread b s).1.initial_short_pv.isSome = true ∧
     (DistanceStrategy.short_spread b s).1.initial_price_data0.isSome = true ∧
     (DistanceStrategy.short_spread b s).1.initial_price_data1.isSome = true ∧
     (DistanceStrategy.short_spread b s).2 =
       [DistanceStrategy.Order.sell 0 (⌊2 * b.pv / 3 / b.price0⌋ + s.qty0),
        DistanceStrategy.Order.buy 1 (⌊2 * b.pv / 3 / b.price1⌋ + s.qty1)]) ∧
    ((DistanceStrategy.long_spread b s).1.status = 2 ∧
     (DistanceStrategy.long_spread b s).1.status ≠ 0 ∧
     (DistanceStrategy.long_spread b s).1.qty0 = ⌊2 * b.pv / 3 / b.price0⌋ ∧
     (DistanceStrategy.long_spread b s).1.qty1 = ⌊2 * b.pv / 3 / b.price1⌋ ∧
     (DistanceStrategy.long_spread b s).1.initial_cash.isSome = true ∧
     (DistanceStrategy.long_spread b s).1.initial_long_pv.isSome = true ∧
     (DistanceStrategy.long_spread b s).1.initial_short_pv.isSome = true ∧
     (DistanceStrategy.long_spread b s).1.initial_price_data0.isSome = true ∧
     (DistanceStrategy.long_spread b s).1.initial_price_data1.isSome = true ∧
     (DistanceStrategy.long_spread b s).2 =
       [DistanceStrategy.Order.buy 0 (⌊2 * b.pv / 3 / b.price0⌋ + s.qty0),
        DistanceStrategy.Order.sell 1 (⌊2 * b.pv / 3 / b.price1⌋ + s.qty1)]) ∧
    ((DistanceStrategy.exit_spread s).1.status = 0 ∧
     (DistanceStrategy.exit_spread s).1.qty0 = 0 ∧
     (DistanceStrategy.exit_spread s).1.qty1 = 0 ∧
     (DistanceStrategy.exit_spread s).1.initial_cash = none ∧
     (DistanceStrategy.exit_spread s).1.initial_long_pv = none ∧
     (DistanceStrategy.exit_spread s).1.initial_short_pv = none ∧
     (DistanceStrategy.exit_spread s).1.initial_price_data0 = none ∧
     (DistanceStrategy.exit_spread s).1.initial_price_data1 = none ∧
     (DistanceStrategy.exit_spread s).2 =
       [DistanceStrategy.Order.close 0, DistanceStrategy.Order.close 1]) := by
  have e0 : pyInt (2 * b.pv / 3 / b.price0) = ⌊2 * b.pv / 3 / b.price0⌋ :=
    pyInt_eq_floor_of_nonneg (by positivity)
  have e1 : pyInt (2 * b.pv / 3 / b.price1) = ⌊2 * b.pv / 3 / b.price1⌋ :=
    pyInt_eq_floor_of_nonneg (by positivity)
  refine ⟨?_, ?_, ?_⟩ <;>
    simp [DistanceStrategy.short_spread, DistanceStrategy.long_spread,
      DistanceStrategy.exit_spread, e0, e1]

/-- The bar used to witness C8: full history, prices 10 and 20,
portfolio value 900. -/
def bC8 : DistanceStrategy.BarInput :=
  { len0 := 84
    len1 := 84
    price0 := 10
    price1 := 20
    spread_mean := 0
    spread_std := 0
    pv := 900 }

/-- Witness for C8 at `bC8` from the initial state. -/
theorem C8_enter_exit_witness :
    ((DistanceStrategy.short_spread bC8 DistanceStrategy.init).1.status = 1 ∧
     (DistanceStrategy.short_spread bC8 DistanceStrategy.init).1.status ≠ 0 ∧
     (DistanceStrategy.short_spread bC8 DistanceStrategy.init).1.qty0
        = ⌊2 * bC8.pv / 3 / bC8.price0⌋ ∧
     (DistanceStrategy.short_spread bC8 DistanceStrategy.init).1.qty1
        = ⌊2 * bC8.pv / 3 / bC8.price1⌋ ∧
     (DistanceStrategy.short_spread bC8 DistanceStrategy.init).1.initial_cash.isSome = true ∧
     (DistanceStrategy.short_spread bC8 DistanceStrategy.init).1.initial_long_pv.isSome = true ∧
     (DistanceStrategy.short_spread bC8 DistanceStrategy.init).1.initial_short_pv.isSome = true ∧
     (DistanceStrategy.short_spread bC8 DistanceStrategy.init).1.initial_price_data0.isSome = true ∧
     (DistanceStrategy.short_spread bC8 DistanceStrategy.init).1.initial_price_data1.isSome = true ∧
     (DistanceStrategy.short_spread bC8 DistanceStrategy.init).2 =
       [DistanceStrategy.Order.sell 0 (⌊2 * bC8.pv / 3 / bC8.price0⌋ + DistanceStrategy.init.qty0),
        DistanceStrategy.Order.buy 1 (⌊2 * bC8.pv / 3 / bC8.price1⌋ + DistanceStrategy.init.qty1)]) ∧
    ((DistanceStrategy.long_spread bC8 DistanceStrategy.init).1.status = 2 ∧
     (DistanceStrategy.long_spread bC8 DistanceStrategy.init).1.status ≠ 0 ∧
     (DistanceStrategy.long_spread bC8 DistanceStrategy.init).1.qty0
        = ⌊2 * bC8.pv / 3 / bC8.price0⌋ ∧
     (DistanceStrategy.long_spread bC8 DistanceStrategy.init).1.qty1
        = ⌊2 * bC8.pv / 3 / bC8.price1⌋ ∧
     (DistanceStrategy.long_spread bC8 DistanceStrategy.init).1.initial_cash.isSome = true ∧
     (DistanceStrategy.long_spread bC8 DistanceStrategy.init).1.initial_long_pv.isSome = true ∧
     (DistanceStrategy.long_spread bC8 DistanceStrategy.init).1.initial_short_pv.isSome = true ∧
     (DistanceStrategy.long_spread bC8 DistanceStrategy.init).1.initial_price_data0.isSome = true ∧
     (DistanceStrategy.long_spread bC8 DistanceStrategy.init).1.initial_price_data1.isSome = true ∧
     (DistanceStrategy.long_spread bC8 DistanceStrategy.init).2 =
       [DistanceStrategy.Order.buy 0 (⌊2 * bC8.pv / 3 / bC8.price0⌋ + DistanceStrategy.init.qty0),
        DistanceStrategy.Order.sell 1 (⌊2 * bC8.pv / 3 / bC8.price1⌋ + DistanceStrategy.init.qty1)]) ∧
    ((DistanceStrategy.exit_spread DistanceStrategy.init).1.status = 0 ∧
     (DistanceStrategy.exit_spread DistanceStrategy.init).1.qty0 = 0 ∧
     (DistanceStrategy.exit_spread DistanceStrategy.init).1.qty1 = 0 ∧
     (DistanceStrategy.exit_spread DistanceStrategy.init).1.initial_cash = none ∧
     (DistanceStrategy.exit_spread DistanceStrategy.init).1.initial_long_pv = none ∧
     (DistanceStrategy.exit_spread DistanceStrategy.init).1.initial_short_pv = none ∧
     (DistanceStrategy.exit_spread DistanceStrategy.init).1.initial_price_data0 = none ∧
     (DistanceStrategy.exit_spread DistanceStrategy.init).1.initial_price_data1 = none ∧
     (DistanceStrategy.exit_spread DistanceStrategy.init).2 =
       [DistanceStrategy.Order.close 0, DistanceStrategy.Order.close 1]) :=
  C8_enter_exit bC8 DistanceStrategy.init
    (by norm_num [bC8]) (by norm_num [bC8]) (by norm_num [bC8])

/-- C9: if either instrument has fewer than `max_lookback` bars of
history, `next` is a no-op: the state is returned unchanged and no
order is emitted. -/
theorem C9_insufficient_history_noop (p : DistanceStrategy.StratParams)
    (b : DistanceStrategy.BarInput) (s : DistanceStrategy.StratState)
    (h : min b.len0 b.len1 < p.max_lookback) :
    DistanceStrategy.next p b s = some (s, []) := by
  unfold DistanceStrategy.next
  simp [h]

/-- A bar with no history at all, used to witness C9. -/
def bC9 : DistanceStrategy.BarInput :=
  { len0 := 0
    len1 := 0
    price0 := 10
    price1 := 10
    spread_mean := 0
    spread_std := 0
    pv := 1000 }

/-- Witness for C9: with zero bars of history the default-parameter
strategy skips the bar from its initial state. -/
theorem C9_insufficient_history_noop_witness :
    DistanceStrategy.next DistanceStrategy.defaultParams bC9 DistanceStrategy.init =
      some (DistanceStrategy.init, []) :=
  C9_insufficient_history_noop DistanceStrategy.defaultParams bC9 DistanceStrategy.init
    (by norm_num [bC9, DistanceStrategy.defaultParams])

/-- `next` never writes the pending-order handle: whatever branch is
taken (skip, entry, exit, stop-loss, stay), the returned state carries
the caller's `orderid` unchanged. -/
theorem next_preserves_orderid (p : DistanceStrategy.StratParams)
    (b : DistanceStrategy.BarInput) (s : DistanceStrategy.StratState)
    (r : DistanceStrategy.StratState × List DistanceStrategy.Order)
    (h : DistanceStrategy.next p b s = some r) : r.1.orderid = s.orderid := by
  simp only [DistanceStrategy.next] at h
  repeat' split at h
  all_goals try exact Option.noConfusion h
  all_goals
    simp only [Option.some.injEq] at h
  all_goals
    subst h
  all_goals
    simp [DistanceStrategy.short_spread, DistanceStrategy.long_spread,
      DistanceStrategy.exit_spread]

/-- `notify_order` only ever writes `none` into the pending-order
handle, so it preserves the invariant `orderid = none`. -/
theorem notify_order_orderid_none (s : DistanceStrategy.StratState) (cash : ℚ)
    (o : DistanceStrategy.OrderInfo) (h : s.orderid = none) :
    (DistanceStrategy.notify_order s cash o).1.orderid = none := by
  unfold DistanceStrategy.notify_order
  split_ifs <;> simp [h]

/-- An event consumed by the strategy instance: a new bar of data or an
order notification from the broker. -/
inductive StratOp where
  | bar (b : DistanceStrategy.BarInput)
  | fill (o : DistanceStrategy.OrderInfo)

/-- One host-loop step: a bar event runs `DistanceStrategy.next` (a
`none` result models the raised exception, leaving the state as is); a
fill event runs `DistanceStrategy.notify_order`. -/
def runOp (p : DistanceStrategy.StratParams)
    (sc : DistanceStrategy.StratState × ℚ) (op : StratOp) :
    DistanceStrategy.StratState × ℚ :=
  match op with
  | StratOp.bar b =>
    match DistanceStrategy.next p b sc.1 with
    | some r => (r.1, sc.2)
    | none => sc
  | StratOp.fill o => DistanceStrategy.notify_order sc.1 sc.2 o

/-- Each host-loop step preserves the invariant `orderid = none`. -/
theorem runOp_preserves_orderid_none (p : DistanceStrategy.StratParams)
    (sc : DistanceStrategy.StratState × ℚ) (op : StratOp)
    (h : sc.1.orderid = none) : (runOp p sc op).1.orderid = none := by
  cases op with
  | bar b =>
    unfold runOp
    show (match DistanceStrategy.next p b sc.1 with
      | some r => (r.1, sc.2)
      | none => sc).1.orderid = none
    cases hn : DistanceStrategy.next p b sc.1 with
    | none => exact h
    | some r => exact (next_preserves_orderid p b sc.1 r hn).trans h
  | fill o => exact notify_order_orderid_none sc.1 sc.2 o h

/-- The invariant `orderid = none` propagates along any event list. -/
theorem foldl_runOp_orderid_none (p : DistanceStrategy.StratParams)
    (ops : List StratOp) :
    ∀ sc : DistanceStrategy.StratState × ℚ, sc.1.orderid = none →
      (ops.foldl (runOp p) sc).1.orderid = none := by
  induction ops with
  | nil => intro sc h; simpa using h
  | cons op rest ih =>
    intro sc h
    exact ih _ (runOp_preserves_orderid_none p sc op h)

/-- C10: the strategy itself never sets the pending-order handle:
`orderid` starts as `none`, `short_spread` / `long_spread` /
`exit_spread` submit orders without storing a handle, `next` preserves
the handle and `notify_order` assigns only `none`; hence after any
sequence of bar and notification events from the initial state
`orderid` is still `none` and the `next` guard condition
`orderid.isSome` that would skip bar processing is always false. -/
theorem C10_orderid_never_pending (p : DistanceStrategy.StratParams)
    (ops : List StratOp) (cash : ℚ) :
    DistanceStrategy.init.orderid = none ∧
    (ops.foldl (runOp p) (DistanceStrategy.init, cash)).1.orderid = none ∧
    (ops.foldl (runOp p) (DistanceStrategy.init, cash)).1.orderid.isSome = false := by
  have h := foldl_runOp_orderid_none p ops (DistanceStrategy.init, cash) rfl
  exact ⟨rfl, h, by rw [h]; rfl⟩
